import Mathlib

/-!
Verification of the source-link logic in `docs/conf.py` of the Qiskit
repository: the branch resolver `determine_github_branch` and the Sphinx
`linkcode_resolve` hook.  Python's partial operations are embedded with
explicit `Except` errors (`KeyError`, `AttributeError` from `.group()` on a
failed regex match or from `getattr`, `ValueError` from
`PurePath.relative_to`), and the process environment, the table of loaded
modules and the introspectable objects are explicit parameters.
-/

namespace Conf

/-- The Python exceptions the embedded code can raise. -/
inductive PyError where
  | keyError : String → PyError
  | attributeError : String → PyError
  | valueError : String → PyError
deriving DecidableEq

/-- The slice of `os.environ` read by `determine_github_branch`:
`GITHUB_REF_NAME`, `GITHUB_BASE_REF` and `GITHUB_REF_TYPE`.  `none` means
the variable is absent from the environment. -/
structure Env where
  ref_name : Option String
  base_ref : Option String
  ref_type : Option String
deriving DecidableEq

/-- Split a character list into its maximal leading run of ASCII digits and
the rest (the behaviour of a greedy `\d+`, which cannot backtrack here
because the following pattern character `.` is not a digit). -/
def takeDigits : List Char → List Char × List Char
  | [] => ([], [])
  | c :: cs =>
    if c.isDigit then
      let p := takeDigits cs
      (c :: p.1, p.2)
    else ([], c :: cs)

/-- Embedding of `re.match(r"(\d+\.\d+)", s)` on a character list: a nonempty digit run,
a literal dot, a nonempty digit run, anchored at the start; returns the
matched text (`.group()`), or `none` when the match fails. -/
def matchMajorMinor (cs : List Char) : Option (List Char) :=
  let p1 := takeDigits cs
  if p1.1 = [] then none
  else
    match p1.2 with
    | '.' :: r2 =>
      let p2 := takeDigits r2
      if p2.1 = [] then none else some (p1.1 ++ '.' :: p2.1)
    | _ => none

/-- Embedding of `re.match(r"(\d+\.\d+)", s)` followed by `.group()`, on strings. -/
def extractMajorMinor (s : String) : Option String :=
  (matchMajorMinor s.toList).map fun cs => String.mk cs

/-- Embedding of `determine_github_branch` from `docs/conf.py`.
Mirrors the source line by line: absent `GITHUB_REF_NAME` gives `"main"`;
a truthy (present and nonempty) `GITHUB_BASE_REF` is returned verbatim;
`os.environ["GITHUB_REF_TYPE"]` raises `KeyError` when absent; ref type
`"branch"` returns the ref name; otherwise the `<major>.<minor>` prefix is
extracted (`.group()` on a failed match raises `AttributeError`) and
`"stable/"` is prepended. -/
def determine_github_branch (env : Env) : Except PyError String :=
  match env.ref_name with
  | none => .ok "main"
  | some ref_name =>
    let after_base : Except PyError String :=
      match env.ref_type with
      | none => .error (.keyError "GITHUB_REF_TYPE")
      | some t =>
        if t = "branch" then .ok ref_name
        else
          match extractMajorMinor ref_name with
          | none => .error (.attributeError "group")
          | some v => .ok ("stable/" ++ v)
    match env.base_ref with
    | some b => if b = "" then after_base else .ok b
    | none => after_base

/-- Embedding of `GITHUB_BRANCH = determine_github_branch()`: the module-level constant
computed once at load time from the process environment and never mutated
afterwards. -/
def GITHUB_BRANCH (env : Env) : Except PyError String :=
  determine_github_branch env

/-- A Python object as seen by `linkcode_resolve`: the four `inspect`
predicates it consults, its attribute dictionary (for `getattr`), the
result of `inspect.getsourcefile` (`none` = `None`), and the result of
`inspect.getsourcelines` (`none` = raises `OSError`; otherwise the list of
source lines and the starting line number). -/
inductive PyObj where
  | mk : Bool → Bool → Bool → Bool → List (String × PyObj) →
      Option String → Option (List String × Nat) → PyObj

/-- Embedding of `inspect.isclass`. -/
def PyObj.is_class : PyObj → Bool
  | .mk c _ _ _ _ _ _ => c

/-- Embedding of `inspect.ismethod`. -/
def PyObj.is_method : PyObj → Bool
  | .mk _ m _ _ _ _ _ => m

/-- Embedding of `inspect.isfunction`. -/
def PyObj.is_function : PyObj → Bool
  | .mk _ _ f _ _ _ _ => f

/-- Embedding of `inspect.isbuiltin`. -/
def PyObj.is_builtin : PyObj → Bool
  | .mk _ _ _ b _ _ _ => b

/-- The object's attribute dictionary. -/
def PyObj.attrs : PyObj → List (String × PyObj)
  | .mk _ _ _ _ a _ _ => a

/-- Embedding of `inspect.getsourcefile`, which returns `None` or a path string. -/
def PyObj.sourcefile : PyObj → Option String
  | .mk _ _ _ _ _ s _ => s

/-- Embedding of `inspect.getsourcelines`: `none` models the `OSError` case, otherwise
the `(source, lineno)` pair. -/
def PyObj.sourcelines : PyObj → Option (List String × Nat)
  | .mk _ _ _ _ _ _ l => l

/-- First binding of a key in an association list (Python attribute /
module-table lookup). -/
def lookupStr {α : Type} : List (String × α) → String → Option α
  | [], _ => none
  | (k, v) :: t, key => if k = key then some v else lookupStr t key

/-- Embedding of `getattr(obj, name)` as a partial lookup; `none` models the
`AttributeError` case. -/
def PyObj.getattr (o : PyObj) (name : String) : Option PyObj :=
  lookupStr o.attrs name

/-- The validation applied inside the traversal loop of `linkcode_resolve`:
`inspect.isclass(obj) or inspect.ismethod(obj) or inspect.isfunction(obj)
and not inspect.isbuiltin(obj)` — Python precedence groups the last two
conjuncts together. -/
def is_valid_code_object (o : PyObj) : Bool :=
  o.is_class || o.is_method || (o.is_function && !o.is_builtin)

/-- The `for part in info["fullname"].split(".")` loop of
`linkcode_resolve`: each step does `obj = getattr(obj, part)` (a missing
attribute raises, i.e. `.error`), then checks `is_valid_code_object` and
returns `None` (i.e. `.ok none`) on failure; when the loop finishes the
final object is returned. -/
def traverse : PyObj → List String → Except PyError (Option PyObj)
  | obj, [] => .ok (some obj)
  | obj, p :: ps =>
    match obj.getattr p with
    | none => .error (.attributeError p)
    | some o =>
      if is_valid_code_object o then traverse o ps else .ok none

/-- Split a character list on a separator character; like Python's
`str.split(sep)`, the empty input yields one empty group. -/
def splitOnChar (sep : Char) : List Char → List (List Char)
  | [] => [[]]
  | c :: cs =>
    match splitOnChar sep cs with
    | [] => [[]]
    | g :: gs => if c = sep then [] :: g :: gs else (c :: g) :: gs

/-- Embedding of `info["fullname"].split(".")`. -/
def splitDot (s : String) : List String :=
  (splitOnChar '.' s.toList).map fun cs => String.mk cs

/-- Nonempty-needle prefix test on character lists. -/
def isPrefixList : List Char → List Char → Bool
  | [], _ => true
  | _ :: _, [] => false
  | a :: as, b :: bs => a = b && isPrefixList as bs

/-- Occurrence of `needle` as a contiguous substring of a character list
(Python's `in` on strings). -/
def containsSub (needle : List Char) : List Char → Bool
  | [] => isPrefixList needle []
  | c :: t => isPrefixList needle (c :: t) || containsSub needle t

/-- Python's `needle in s` substring test. -/
def strContains (s needle : String) : Bool :=
  containsSub needle.toList s.toList

/-- The components of a `PurePath` built from a string: split on `/`,
empty components discarded. -/
def pathParts (p : String) : List String :=
  ((splitOnChar '/' p.toList).map fun cs => String.mk cs).filter fun s => s ≠ ""

/-- Embedding of `PurePath(path).relative_to(root)` on component lists: the suffix when
`root` is a leading prefix of `path`, otherwise `none` (models the
`ValueError` raised by `relative_to`). -/
def relativeTo (path root : List String) : Option (List String) :=
  if root.isPrefixOf path then some (path.drop root.length) else none

/-- The `(module, fullname)` pair Sphinx passes as `info`. -/
structure LinkInfo where
  module : String
  fullname : String

/-- Embedding of `linkcode_resolve` from `docs/conf.py`.  Parameters make
the ambient process state explicit: `modules` is `sys.modules`,
`conf_file` is `__file__` (so the repository root is its parent's parent),
and `branch` is the module-level `GITHUB_BRANCH` value.  The result is
`.ok none` for Python `None`, `.ok (some url)` for a returned URL string,
and `.error` for a propagated exception. -/
def linkcode_resolve (modules : List (String × PyObj)) (conf_file : String)
    (branch : String) (domain : String) (info : LinkInfo) :
    Except PyError (Option String) :=
  if domain ≠ "py" then .ok none
  else
    match lookupStr modules info.module with
    | none => .ok none
    | some m =>
      match traverse m (splitDot info.fullname) with
      | .error e => .error e
      | .ok none => .ok none
      | .ok (some obj) =>
        match obj.sourcefile with
        | none => .ok none
        | some full_file_name =>
          if !strContains full_file_name "qiskit" then .ok none
          else
            let repo_root := ((pathParts conf_file).dropLast).dropLast
            match relativeTo (pathParts full_file_name) repo_root with
            | none => .error (.valueError full_file_name)
            | some rel =>
              let file_name := String.intercalate "/" rel
              let linespec :=
                match obj.sourcelines with
                | none => ""
                | some (source, lineno) =>
                  "#L" ++ toString lineno ++ "-L" ++
                    toString ((lineno : Int) + source.length - 1)
              .ok (some ("https://github.com/Qiskit/qiskit/tree/" ++ branch ++
                "/" ++ file_name ++ linespec))


/-- Unfolding lemma: once `GITHUB_REF_NAME` is set and `GITHUB_BASE_REF` is
absent or empty, `determine_github_branch` proceeds to the ref-type
dispatch. -/
theorem determine_github_branch_after_base (rn : String) (br rt : Option String)
    (hbr : br = none ∨ br = some "") :
    determine_github_branch ⟨some rn, br, rt⟩ =
      match rt with
      | none => .error (.keyError "GITHUB_REF_TYPE")
      | some t =>
        if t = "branch" then .ok rn
        else
          match extractMajorMinor rn with
          | none => .error (.attributeError "group")
          | some v => .ok ("stable/" ++ v) := by
  rcases hbr with h | h <;> subst h <;> rfl

/-- Claim C1: `determine_github_branch` follows the priority order: no
`GITHUB_REF_NAME` gives `"main"`; otherwise a present nonempty
`GITHUB_BASE_REF` is returned verbatim; otherwise ref type `"branch"`
returns the ref name verbatim. -/
theorem C1_branch_priority :
    (∀ env : Env, env.ref_name = none →
      determine_github_branch env = .ok "main") ∧
    (∀ (env : Env) (b : String), env.ref_name ≠ none →
      env.base_ref = some b → b ≠ "" →
      determine_github_branch env = .ok b) ∧
    (∀ (env : Env) (rn : String), env.ref_name = some rn →
      (env.base_ref = none ∨ env.base_ref = some "") →
      env.ref_type = some "branch" →
      determine_github_branch env = .ok rn) := by
  refine ⟨?_, ?_, ?_⟩
  · intro env h
    obtain ⟨rn, br, rt⟩ := env
    cases h
    rfl
  · intro env b hrn hb hne
    obtain ⟨rn, br, rt⟩ := env
    cases rn with
    | none => exact absurd rfl hrn
    | some rn =>
      cases hb
      simp [determine_github_branch, hne]
  · intro env rn hrn hbr ht
    obtain ⟨rn0, br, rt⟩ := env
    cases hrn
    cases ht
    rw [determine_github_branch_after_base rn br (some "branch") hbr]
    simp

/-- Witness for C1 at concrete environments. -/
theorem C1_branch_priority_witness :
    determine_github_branch ⟨none, none, none⟩ = .ok "main" ∧
    determine_github_branch ⟨some "feat", some "main", some "tag"⟩ = .ok "main" ∧
    determine_github_branch ⟨some "feat", none, some "branch"⟩ = .ok "feat" :=
  ⟨C1_branch_priority.1 ⟨none, none, none⟩ rfl,
   C1_branch_priority.2.1 ⟨some "feat", some "main", some "tag"⟩ "main"
     (by simp) rfl (by decide),
   C1_branch_priority.2.2 ⟨some "feat", none, some "branch"⟩ "feat"
     rfl (Or.inl rfl) rfl⟩

/-- Claim C2: on the tag path (ref name set, base ref absent or empty, ref
type set but not `"branch"`), the leading `<major>.<minor>` numeric prefix
of the ref name is extracted and `"stable/<major>.<minor>"` is returned;
in particular `"1.2.3"` and `"1.2.3rc1"` both yield `"stable/1.2"`. -/
theorem C2_tag_to_stable :
    (∀ (env : Env) (rn t mm : String), env.ref_name = some rn →
      (env.base_ref = none ∨ env.base_ref = some "") →
      env.ref_type = some t → t ≠ "branch" →
      extractMajorMinor rn = some mm →
      determine_github_branch env = .ok ("stable/" ++ mm)) ∧
    determine_github_branch ⟨some "1.2.3", none, some "tag"⟩ = .ok "stable/1.2" ∧
    determine_github_branch ⟨some "1.2.3rc1", none, some "tag"⟩ = .ok "stable/1.2" := by
  refine ⟨?_, rfl, rfl⟩
  intro env rn t mm hrn hbr ht htb hmm
  obtain ⟨rn0, br, rt⟩ := env
  cases hrn
  cases ht
  rw [determine_github_branch_after_base rn br (some t) hbr]
  simp [htb, hmm]

/-- Witness for C2 on a fresh concrete tag. -/
theorem C2_tag_to_stable_witness :
    determine_github_branch ⟨some "9.8.7", none, some "tag"⟩ = .ok "stable/9.8" :=
  C2_tag_to_stable.1 ⟨some "9.8.7", none, some "tag"⟩ "9.8.7" "tag" "9.8"
    rfl (Or.inl rfl) rfl (by decide) rfl

/-- Claim C5: on the tag path, a ref name with no leading
`<digits>.<digits>` prefix makes the resolver fail fatally (the
`AttributeError` from calling `.group()` on a failed match), rather than
return a branch name. -/
theorem C5_malformed_tag_fatal :
    ∀ (env : Env) (rn t : String), env.ref_name = some rn →
      (env.base_ref = none ∨ env.base_ref = some "") →
      env.ref_type = some t → t ≠ "branch" →
      extractMajorMinor rn = none →
      determine_github_branch env = .error (.attributeError "group") := by
  intro env rn t hrn hbr ht htb hmm
  obtain ⟨rn0, br, rt⟩ := env
  cases hrn
  cases ht
  rw [determine_github_branch_after_base rn br (some t) hbr]
  simp [htb, hmm]

/-- Witness for C5 at the spec's example tag `"notaversion"`. -/
theorem C5_malformed_tag_fatal_witness :
    determine_github_branch ⟨some "notaversion", none, some "tag"⟩ =
      .error (.attributeError "group") :=
  C5_malformed_tag_fatal ⟨some "notaversion", none, some "tag"⟩
    "notaversion" "tag" rfl (Or.inl rfl) rfl (by decide) rfl

/-- Counterexample to claim C8 as stated: with `GITHUB_REF_NAME` set to the
well-formed tag `"1.2.3"` but `GITHUB_BASE_REF` and `GITHUB_REF_TYPE`
absent, `determine_github_branch` raises `KeyError` on the subscript
`os.environ["GITHUB_REF_TYPE"]` — a failure that is not a regex-match
failure on a malformed tag. -/
theorem C8_counterexample :
    determine_github_branch ⟨some "1.2.3", none, none⟩ =
      .error (.keyError "GITHUB_REF_TYPE") := rfl

/-- Claim C8 (amended): `determine_github_branch` returns a string for
every environment except exactly two failure modes: the `KeyError` when
`GITHUB_REF_NAME` is set, `GITHUB_BASE_REF` is absent or empty and
`GITHUB_REF_TYPE` is absent, and the regex-match failure on a tag ref with
no leading `<digits>.<digits>` prefix. -/
theorem C8_total_classification :
    ∀ env : Env,
      (∃ s, determine_github_branch env = .ok s) ∨
      ((∃ rn, env.ref_name = some rn) ∧
        (env.base_ref = none ∨ env.base_ref = some "") ∧
        env.ref_type = none ∧
        determine_github_branch env = .error (.keyError "GITHUB_REF_TYPE")) ∨
      (∃ rn t, env.ref_name = some rn ∧
        (env.base_ref = none ∨ env.base_ref = some "") ∧
        env.ref_type = some t ∧ t ≠ "branch" ∧ extractMajorMinor rn = none ∧
        determine_github_branch env = .error (.attributeError "group")) := by
  intro env
  obtain ⟨rn, br, rt⟩ := env
  cases rn with
  | none => exact Or.inl ⟨"main", rfl⟩
  | some rn =>
    have hbr : br = none ∨ br = some "" ∨ ∃ b, br = some b ∧ b ≠ "" := by
      cases br with
      | none => exact Or.inl rfl
      | some b =>
        by_cases hb : b = ""
        · exact Or.inr (Or.inl (by rw [hb]))
        · exact Or.inr (Or.inr ⟨b, rfl, hb⟩)
    rcases hbr with h | h | ⟨b, h, hb⟩
    case mk.some.inr.inr.intro.intro =>
      subst h
      exact Or.inl ⟨b, by simp [determine_github_branch, hb]⟩
    all_goals {
      have hfalsy : br = none ∨ br = some "" := by
        first
        | exact Or.inl h
        | exact Or.inr h
      cases rt with
      | none =>
        refine Or.inr (Or.inl ⟨⟨rn, rfl⟩, hfalsy, rfl, ?_⟩)
        rw [determine_github_branch_after_base rn br none hfalsy]
      | some t =>
        by_cases hbranch : t = "branch"
        · subst hbranch
          refine Or.inl ⟨rn, ?_⟩
          rw [determine_github_branch_after_base rn br (some "branch") hfalsy]
          simp
        · cases hmm : extractMajorMinor rn with
          | some v =>
            refine Or.inl ⟨"stable/" ++ v, ?_⟩
            rw [determine_github_branch_after_base rn br (some t) hfalsy]
            simp [hbranch, hmm]
          | none =>
            refine Or.inr (Or.inr ⟨rn, t, rfl, hfalsy, rfl, hbranch, hmm, ?_⟩)
            rw [determine_github_branch_after_base rn br (some t) hfalsy]
            simp [hbranch, hmm]
    }

/-- Counterexample to claim C3 as stated: the final object `b` is a
linkable class with a qualifying source file (resolving it directly as
fullname `"b"` yields a URL, third conjunct), yet resolving it through
the non-class, non-function intermediate `a` (fullname `"a.b"`) returns
`None`: the per-component validation rejects the intermediate before the
final object is ever reached, so a URL is not returned regardless of the
kinds of intermediate objects. -/
theorem C3_counterexample :
    is_valid_code_object
      (PyObj.mk true false false false [] (some "/repo/qiskit/x.py")
        (some (["l1"], 10))) = true ∧
    linkcode_resolve
      [("m", PyObj.mk false false false false
        [("a", PyObj.mk false false false false
          [("b", PyObj.mk true false false false [] (some "/repo/qiskit/x.py")
            (some (["l1"], 10)))] none none)] none none)]
      "/repo/docs/conf.py" "main" "py" ⟨"m", "a.b"⟩ = .ok none ∧
    linkcode_resolve
      [("m", PyObj.mk false false false false
        [("b", PyObj.mk true false false false [] (some "/repo/qiskit/x.py")
          (some (["l1"], 10)))] none none)]
      "/repo/docs/conf.py" "main" "py" ⟨"m", "b"⟩ =
      .ok (some "https://github.com/Qiskit/qiskit/tree/main/qiskit/x.py#L10-L10") :=
  ⟨rfl, rfl, rfl⟩

/-- Claim C3 (amended): the traversal loop of `linkcode_resolve` validates
the object reached after every dot-separated component, intermediate and
final alike; as soon as any reached object fails the
class-or-method-or-non-builtin-function validation the function returns
`None`, and when the traversal does deliver a final object (at least one
component was traversed) that object passed the validation. -/
theorem C3_per_component_validation :
    (∀ (obj o : PyObj) (p : String) (ps : List String),
      obj.getattr p = some o → is_valid_code_object o = false →
      traverse obj (p :: ps) = .ok none) ∧
    (∀ (obj r : PyObj) (p : String) (ps : List String),
      traverse obj (p :: ps) = .ok (some r) →
      is_valid_code_object r = true) := by
  constructor
  · intro obj o p ps h hv
    simp [traverse, h, hv]
  · intro obj r p ps
    induction ps generalizing obj p with
    | nil =>
      intro h
      cases hg : obj.getattr p with
      | none => simp [traverse, hg] at h
      | some o =>
        cases hv : is_valid_code_object o with
        | false => simp [traverse, hg, hv] at h
        | true =>
          simp [traverse, hg, hv] at h
          rw [← h]
          exact hv
    | cons q qs ih =>
      intro h
      cases hg : obj.getattr p with
      | none => simp [traverse, hg] at h
      | some o =>
        cases hv : is_valid_code_object o with
        | false => simp [traverse, hg, hv] at h
        | true =>
          rw [traverse, hg] at h
          simp [hv] at h
          exact ih o q h

/-- Witness for C3 (amended) at a concrete two-component traversal whose
first step reaches an invalid object. -/
theorem C3_per_component_validation_witness :
    traverse
      (PyObj.mk false false false false
        [("a", PyObj.mk false false false false [] none none)] none none)
      ["a", "b"] = .ok none :=
  C3_per_component_validation.1
    (PyObj.mk false false false false
      [("a", PyObj.mk false false false false [] none none)] none none)
    (PyObj.mk false false false false [] none none) "a" ["b"] rfl rfl

/-- Claim C4: `linkcode_resolve` returns `None` (rather than raising) for
a non-`"py"` domain, for a module that is not loaded, when the traversal
rejects an object as not a linkable code kind, when the source file of the
resolved object is unresolvable, and when the source file path does not
contain `"qiskit"`. -/
theorem C4_null_cases :
    (∀ (modules : List (String × PyObj)) (conf br d : String)
      (info : LinkInfo), d ≠ "py" →
      linkcode_resolve modules conf br d info = .ok none) ∧
    (∀ (modules : List (String × PyObj)) (conf br : String)
      (info : LinkInfo), lookupStr modules info.module = none →
      linkcode_resolve modules conf br "py" info = .ok none) ∧
    (∀ (modules : List (String × PyObj)) (conf br : String)
      (info : LinkInfo) (m : PyObj),
      lookupStr modules info.module = some m →
      traverse m (splitDot info.fullname) = .ok none →
      linkcode_resolve modules conf br "py" info = .ok none) ∧
    (∀ (modules : List (String × PyObj)) (conf br : String)
      (info : LinkInfo) (m obj : PyObj),
      lookupStr modules info.module = some m →
      traverse m (splitDot info.fullname) = .ok (some obj) →
      obj.sourcefile = none →
      linkcode_resolve modules conf br "py" info = .ok none) ∧
    (∀ (modules : List (String × PyObj)) (conf br : String)
      (info : LinkInfo) (m obj : PyObj) (f : String),
      lookupStr modules info.module = some m →
      traverse m (splitDot info.fullname) = .ok (some obj) →
      obj.sourcefile = some f →
      strContains f "qiskit" = false →
      linkcode_resolve modules conf br "py" info = .ok none) := by
  refine ⟨?_, ?_, ?_, ?_, ?_⟩
  · intro modules conf br d info h
    simp [linkcode_resolve, h]
  · intro modules conf br info h
    simp [linkcode_resolve, h]
  · intro modules conf br info m h1 h2
    simp [linkcode_resolve, h1, h2]
  · intro modules conf br info m obj h1 h2 h3
    simp [linkcode_resolve, h1, h2, h3]
  · intro modules conf br info m obj f h1 h2 h3 h4
    simp [linkcode_resolve, h1, h2, h3, h4]

/-- Witness for C4: one concrete input per recovered-as-`None` case. -/
theorem C4_null_cases_witness :
    linkcode_resolve [] "/repo/docs/conf.py" "main" "js" ⟨"m", "f"⟩ = .ok none ∧
    linkcode_resolve [] "/repo/docs/conf.py" "main" "py" ⟨"m", "f"⟩ = .ok none ∧
    linkcode_resolve
      [("m", PyObj.mk false false false false
        [("x", PyObj.mk false false false false [] none none)] none none)]
      "/repo/docs/conf.py" "main" "py" ⟨"m", "x"⟩ = .ok none ∧
    linkcode_resolve
      [("m", PyObj.mk false false false false
        [("c", PyObj.mk true false false false [] none none)] none none)]
      "/repo/docs/conf.py" "main" "py" ⟨"m", "c"⟩ = .ok none ∧
    linkcode_resolve
      [("m", PyObj.mk false false false false
        [("c", PyObj.mk true false false false [] (some "/elsewhere/y.py")
          none)] none none)]
      "/repo/docs/conf.py" "main" "py" ⟨"m", "c"⟩ = .ok none :=
  ⟨C4_null_cases.1 [] "/repo/docs/conf.py" "main" "js" ⟨"m", "f"⟩ (by decide),
   C4_null_cases.2.1 [] "/repo/docs/conf.py" "main" ⟨"m", "f"⟩ rfl,
   C4_null_cases.2.2.1 _ "/repo/docs/conf.py" "main" ⟨"m", "x"⟩ _ rfl rfl,
   C4_null_cases.2.2.2.1 _ "/repo/docs/conf.py" "main" ⟨"m", "c"⟩ _ _ rfl rfl rfl,
   C4_null_cases.2.2.2.2 _ "/repo/docs/conf.py" "main" ⟨"m", "c"⟩ _ _
     "/elsewhere/y.py" rfl rfl rfl rfl⟩

/-- Claim C6: a missing attribute during the dotted-name traversal raises
(`AttributeError` from `getattr`) and the exception propagates out of
`linkcode_resolve` instead of being converted to `None`. -/
theorem C6_missing_attr_fatal :
    (∀ (obj : PyObj) (p : String) (ps : List String),
      obj.getattr p = none →
      traverse obj (p :: ps) = .error (.attributeError p)) ∧
    (∀ (modules : List (String × PyObj)) (conf br : String)
      (info : LinkInfo) (m : PyObj) (e : PyError),
      lookupStr modules info.module = some m →
      traverse m (splitDot info.fullname) = .error e →
      linkcode_resolve modules conf br "py" info = .error e) := by
  constructor
  · intro obj p ps h
    simp [traverse, h]
  · intro modules conf br info m e h1 h2
    simp [linkcode_resolve, h1, h2]

/-- Witness for C6: resolving fullname `"c.zz"` where class `c` has no
attribute `zz` propagates the `AttributeError` out of
`linkcode_resolve`. -/
theorem C6_missing_attr_fatal_witness :
    traverse (PyObj.mk true false false false [] none none) ["zz"] =
      .error (.attributeError "zz") ∧
    linkcode_resolve
      [("m", PyObj.mk false false false false
        [("c", PyObj.mk true false false false [] none none)] none none)]
      "/repo/docs/conf.py" "main" "py" ⟨"m", "c.zz"⟩ =
      .error (.attributeError "zz") :=
  ⟨C6_missing_attr_fatal.1 (PyObj.mk true false false false [] none none)
    "zz" [] rfl,
   C6_missing_attr_fatal.2
    [("m", PyObj.mk false false false false
      [("c", PyObj.mk true false false false [] none none)] none none)]
    "/repo/docs/conf.py" "main" ⟨"m", "c.zz"⟩
    (PyObj.mk false false false false
      [("c", PyObj.mk true false false false [] none none)] none none)
    (.attributeError "zz") rfl rfl⟩

/-- Claim C7: when `linkcode_resolve` produces a link, the URL is the
fixed GitHub base with the branch and the file path relative to the
parent-of-parent directory of the configuration file, followed by a
`#L<start>-L<end>` fragment with `end = start + count(lines) - 1`; when
`inspect.getsourcelines` fails with `OSError` the fragment is omitted and
the file-level URL is still returned. -/
theorem C7_url_format :
    ∀ (modules : List (String × PyObj)) (conf br : String) (info : LinkInfo)
      (m obj : PyObj) (f : String) (rel : List String),
      lookupStr modules info.module = some m →
      traverse m (splitDot info.fullname) = .ok (some obj) →
      obj.sourcefile = some f →
      strContains f "qiskit" = true →
      relativeTo (pathParts f) ((pathParts conf).dropLast.dropLast) = some rel →
      ((∀ (source : List String) (lineno : Nat),
          obj.sourcelines = some (source, lineno) →
          linkcode_resolve modules conf br "py" info =
            .ok (some ("https://github.com/Qiskit/qiskit/tree/" ++ br ++ "/" ++
              String.intercalate "/" rel ++
              ("#L" ++ toString lineno ++ "-L" ++
                toString ((lineno : Int) + source.length - 1))))) ∧
       (obj.sourcelines = none →
          linkcode_resolve modules conf br "py" info =
            .ok (some ("https://github.com/Qiskit/qiskit/tree/" ++ br ++ "/" ++
              String.intercalate "/" rel ++ "")))) := by
  intro modules conf br info m obj f rel h1 h2 h3 h4 h5
  constructor
  · intro source lineno h6
    simp [linkcode_resolve, h1, h2, h3, h4, h5, h6]
  · intro h6
    simp [linkcode_resolve, h1, h2, h3, h4, h5, h6]

/-- Witness for C7: a class at lines 10-11 of `qiskit/x.py` gets the full
URL with line fragment; the same class with source lines unavailable gets
the file-level URL. -/
theorem C7_url_format_witness :
    linkcode_resolve
      [("m", PyObj.mk false false false false
        [("c", PyObj.mk true false false false [] (some "/repo/qiskit/x.py")
          (some (["l1", "l2"], 10)))] none none)]
      "/repo/docs/conf.py" "main" "py" ⟨"m", "c"⟩ =
      .ok (some "https://github.com/Qiskit/qiskit/tree/main/qiskit/x.py#L10-L11") ∧
    linkcode_resolve
      [("m", PyObj.mk false false false false
        [("c", PyObj.mk true false false false [] (some "/repo/qiskit/x.py")
          none)] none none)]
      "/repo/docs/conf.py" "main" "py" ⟨"m", "c"⟩ =
      .ok (some "https://github.com/Qiskit/qiskit/tree/main/qiskit/x.py") := by
  constructor
  · exact (C7_url_format
      [("m", PyObj.mk false false false false
        [("c", PyObj.mk true false false false [] (some "/repo/qiskit/x.py")
          (some (["l1", "l2"], 10)))] none none)]
      "/repo/docs/conf.py" "main" ⟨"m", "c"⟩
      (PyObj.mk false false false false
        [("c", PyObj.mk true false false false [] (some "/repo/qiskit/x.py")
          (some (["l1", "l2"], 10)))] none none)
      (PyObj.mk true false false false [] (some "/repo/qiskit/x.py")
        (some (["l1", "l2"], 10)))
      "/repo/qiskit/x.py" ["qiskit", "x.py"]
      rfl rfl rfl rfl rfl).1 ["l1", "l2"] 10 rfl
  · exact (C7_url_format
      [("m", PyObj.mk false false false false
        [("c", PyObj.mk true false false false [] (some "/repo/qiskit/x.py")
          none)] none none)]
      "/repo/docs/conf.py" "main" ⟨"m", "c"⟩
      (PyObj.mk false false false false
        [("c", PyObj.mk true false false false [] (some "/repo/qiskit/x.py")
          none)] none none)
      (PyObj.mk true false false false [] (some "/repo/qiskit/x.py") none)
      "/repo/qiskit/x.py" ["qiskit", "x.py"]
      rfl rfl rfl rfl rfl).2 rfl

/-- Claim C9: with an unchanged environment snapshot and unchanged loaded
modules, two calls to `linkcode_resolve` with the same arguments return
identical results, and the branch component they use is the single
process-wide `GITHUB_BRANCH` value: any two reads of it agree. -/
theorem C9_idempotent_per_process :
    ∀ (env : Env) (modules : List (String × PyObj)) (conf d : String)
      (info : LinkInfo) (br₁ br₂ : String),
      GITHUB_BRANCH env = .ok br₁ → GITHUB_BRANCH env = .ok br₂ →
      br₁ = br₂ ∧
      linkcode_resolve modules conf br₁ d info =
        linkcode_resolve modules conf br₂ d info := by
  intro env modules conf d info br₁ br₂ h1 h2
  have hb : br₁ = br₂ := Except.ok.inj (h1.symm.trans h2)
  exact ⟨hb, by rw [hb]⟩

/-- Witness for C9 at a concrete local-build environment and input. -/
theorem C9_idempotent_per_process_witness :
    "main" = "main" ∧
    linkcode_resolve [] "/repo/docs/conf.py" "main" "py" ⟨"m", "f"⟩ =
      linkcode_resolve [] "/repo/docs/conf.py" "main" "py" ⟨"m", "f"⟩ :=
  C9_idempotent_per_process ⟨none, none, none⟩ [] "/repo/docs/conf.py" "py"
    ⟨"m", "f"⟩ "main" "main" rfl rfl

/-- Claim C10: when the resolved object passes validation and its source
file contains `"qiskit"` but is not under the repository root (the
parent-of-parent directory of the configuration file), the
`relative_to` computation raises `ValueError` and `linkcode_resolve`
propagates it instead of returning `None` or a URL. -/
theorem C10_outside_root_raises :
    ∀ (modules : List (String × PyObj)) (conf br : String) (info : LinkInfo)
      (m obj : PyObj) (f : String),
      lookupStr modules info.module = some m →
      traverse m (splitDot info.fullname) = .ok (some obj) →
      obj.sourcefile = some f →
      strContains f "qiskit" = true →
      relativeTo (pathParts f) ((pathParts conf).dropLast.dropLast) = none →
      linkcode_resolve modules conf br "py" info = .error (.valueError f) := by
  intro modules conf br info m obj f h1 h2 h3 h4 h5
  simp [linkcode_resolve, h1, h2, h3, h4, h5]

/-- Witness for C10: a class whose source file is an installed copy under
`site-packages` (contains `"qiskit"` but is outside the repository root
derived from `"/repo/docs/conf.py"`). -/
theorem C10_outside_root_raises_witness :
    linkcode_resolve
      [("m", PyObj.mk false false false false
        [("c", PyObj.mk true false false false []
          (some "/usr/lib/python3/site-packages/qiskit/x.py")
          (some (["l1"], 5)))] none none)]
      "/repo/docs/conf.py" "main" "py" ⟨"m", "c"⟩ =
      .error (.valueError "/usr/lib/python3/site-packages/qiskit/x.py") :=
  C10_outside_root_raises
    [("m", PyObj.mk false false false false
      [("c", PyObj.mk true false false false []
        (some "/usr/lib/python3/site-packages/qiskit/x.py")
        (some (["l1"], 5)))] none none)]
    "/repo/docs/conf.py" "main" ⟨"m", "c"⟩
    (PyObj.mk false false false false
      [("c", PyObj.mk true false false false []
        (some "/usr/lib/python3/site-packages/qiskit/x.py")
        (some (["l1"], 5)))] none none)
    (PyObj.mk true false false false []
      (some "/usr/lib/python3/site-packages/qiskit/x.py")
      (some (["l1"], 5)))
    "/usr/lib/python3/site-packages/qiskit/x.py"
    rfl rfl rfl rfl rfl

end Conf
